import Mathlib

set_option linter.unusedVariables false

/-!
Shallow embedding of the permission model of the vultur-sso-client SDK:
the permission catalog data shapes (src/types.ts), the client-side
permission resolver and query hooks (src/hooks.ts), the server-side
identity client and permission checker (src/server.ts), and the
permission-configuration builder (src/config.ts).  HTTP transport is
modelled by passing the decoded response (status code and body) to the
function that inspects it; thrown `VulturSSOError`s become `Except`
errors.  JavaScript array iteration becomes `List` traversal in the same
order; JS string falsiness (`undefined` or `""`) is modelled explicitly.
-/

namespace VulturSSO

/-- Effect of a permission entry: the TS union type `allow | deny`. -/
inductive PermissionEffect where
  | allow
  | deny
deriving DecidableEq, Repr

/-- `PermissionScope` from src/types.ts: one grantable capability. -/
structure PermissionScope where
  id : String
  name : String
  description : Option String
  resource : String
  action : String
deriving DecidableEq, Repr

/-- `Permission` from src/types.ts: a scope bound to an effect. -/
structure Permission where
  scope : PermissionScope
  effect : PermissionEffect
deriving DecidableEq, Repr

/-- `UserRole` from src/types.ts: a role record of the identity service. -/
structure UserRole where
  id : Nat
  name : String
  description : Option String
  created_by : String
  created_at : String
  updated_at : String
  is_active : Bool
deriving DecidableEq, Repr

/-- `UserInfo` from src/types.ts: the authenticated user record. -/
structure UserInfo where
  eth_address : String
  character_name : String
  roles : List String
  is_admin : Bool
  tribe_id : Option Int
deriving DecidableEq, Repr

/-- `UserPermissions` from src/types.ts: the resolver's output bundle. -/
structure UserPermissions where
  user : UserInfo
  roles : List UserRole
  permissions : List Permission
  isAdmin : Bool
  fetchedAt : String
deriving DecidableEq, Repr

/-- Whether the character list `s` starts with the pattern `pat`. -/
def charsStartWith : List Char → List Char → Bool
  | [], _ => true
  | _ :: _, [] => false
  | p :: ps, c :: cs => p == c && charsStartWith ps cs

/-- Whether the pattern `pat` occurs as a contiguous run inside `s`
(the semantics of JavaScript `String.prototype.includes`). -/
def charsContain (pat : List Char) : List Char → Bool
  | [] => charsStartWith pat []
  | c :: cs => charsStartWith pat (c :: cs) || charsContain pat cs

/-- Lower-casing of one character, as `Char.toLower` does it (Basic
Latin range), defined by plain arithmetic so that it evaluates. -/
def charToLower (c : Char) : Char :=
  if 65 ≤ c.toNat ∧ c.toNat ≤ 90 then Char.ofNat (c.toNat + 32) else c

/-- `roleName.toLowerCase().includes("member")` from src/hooks.ts
line 97: case-insensitive substring test. -/
def memberSubstr (roleName : String) : Bool :=
  charsContain "member".toList (roleName.toList.map charToLower)

/-- Body of the scope loop of `PermissionResolver.resolveUserPermissions`
(src/hooks.ts lines 88 to 108), for one claimed role name: the role is
looked up by name in the supplied role list; if found and active, every
catalog scope is examined and contributes its pushed entries in order. -/
def roleContribution (user : UserInfo) (roles : List UserRole)
    (catalogScopes : List PermissionScope) (roleName : String) : List Permission :=
  match roles.find? (fun r => r.name == roleName) with
  | some role =>
    if role.is_active then
      catalogScopes.flatMap (fun permissionScope =>
        if user.is_admin then
          [{ scope := permissionScope, effect := PermissionEffect.allow }]
        else if memberSubstr roleName then
          if permissionScope.action == "read" then
            [{ scope := permissionScope, effect := PermissionEffect.allow }]
          else []
        else [])
    else []
  | none => []

/-- `PermissionResolver.resolveUserPermissions` (src/hooks.ts lines 72 to
113).  The catalog scopes `config.permissionConfig.permissions` read from
the global config are passed explicitly; `applicationName` is received
and, as in the source, unused. -/
def resolveUserPermissions (user : UserInfo) (roles : List UserRole)
    (applicationName : String) (catalogScopes : List PermissionScope) : List Permission :=
  user.roles.flatMap (roleContribution user roles catalogScopes)

namespace Hooks

/-- `hasPermission` of `usePermissionCheck` (src/hooks.ts lines 201 to
206): `userPermissions` is `none` while no resolution has completed;
`find` returns the first entry whose scope id matches, and
`permission?.effect === requiredEffect` is false when nothing matched. -/
def hasPermission (userPermissions : Option UserPermissions)
    (scopeId : String) (requiredEffect : PermissionEffect) : Bool :=
  match userPermissions with
  | none => false
  | some up =>
    match up.permissions.find? (fun p => p.scope.id == scopeId) with
    | some permission => permission.effect == requiredEffect
    | none => false

/-- `hasAnyPermission` (src/hooks.ts lines 208 to 210): `scopeIds.some`. -/
def hasAnyPermission (userPermissions : Option UserPermissions)
    (scopeIds : List String) (requiredEffect : PermissionEffect) : Bool :=
  scopeIds.any (fun scopeId => hasPermission userPermissions scopeId requiredEffect)

/-- `hasAllPermissions` (src/hooks.ts lines 212 to 214): `scopeIds.every`. -/
def hasAllPermissions (userPermissions : Option UserPermissions)
    (scopeIds : List String) (requiredEffect : PermissionEffect) : Bool :=
  scopeIds.all (fun scopeId => hasPermission userPermissions scopeId requiredEffect)

/-- `hasRole` (src/hooks.ts lines 216 to 219): membership of the claim
list `userPermissions.user.roles`. -/
def hasRole (userPermissions : Option UserPermissions) (roleName : String) : Bool :=
  match userPermissions with
  | none => false
  | some up => up.user.roles.contains roleName

/-- `isAdmin` (src/hooks.ts lines 221 to 223):
`userPermissions?.isAdmin ?? false`. -/
def isAdmin (userPermissions : Option UserPermissions) : Bool :=
  match userPermissions with
  | none => false
  | some up => up.isAdmin

end Hooks

/-- The `code` strings carried by `VulturSSOError` (src/server.ts). -/
inductive ErrorCode where
  | UNAUTHORIZED
  | FORBIDDEN
  | NOT_FOUND
  | NETWORK_ERROR
deriving DecidableEq, Repr

/-- `VulturSSOError` from src/server.ts lines 17 to 27: a typed error
with a code and a message. -/
structure VulturSSOError where
  code : ErrorCode
  message : String
deriving DecidableEq, Repr

/-- `response.ok` of the fetch API: status in the range 200 to 299. -/
def responseOk (status : Nat) : Bool :=
  decide (200 ≤ status) && decide (status < 300)

/-- The decoded JSON body of the permission-check endpoint.  The
`allowed` field is `some b` when the body carries a boolean `allowed`,
and `none` when the field is absent or not a boolean, so that the source
comparison `result.allowed === true` becomes `allowed == some true`. -/
structure CheckPermissionBody where
  allowed : Option Bool
deriving DecidableEq, Repr

namespace VulturIdentServerClient

/-- `VulturIdentServerClient.checkUserPermission` (src/server.ts lines
117 to 143), as a function of the decoded HTTP response it inspects:
non-ok 401 raises UNAUTHORIZED, non-ok 404 returns false, any other
non-ok status raises NETWORK_ERROR, and an ok response yields
`result.allowed === true`. -/
def checkUserPermission (status : Nat) (body : CheckPermissionBody) :
    Except VulturSSOError Bool :=
  if !responseOk status then
    if status == 401 then
      Except.error { code := ErrorCode.UNAUTHORIZED, message := "Invalid or expired token" }
    else if status == 404 then
      Except.ok false
    else
      Except.error { code := ErrorCode.NETWORK_ERROR, message := "Permission check failed" }
  else
    Except.ok (body.allowed == some true)

end VulturIdentServerClient

namespace ServerPermissionChecker

/-- `ServerPermissionChecker.hasPermission` (src/server.ts lines 204 to
213), as a function of the underlying `checkUserPermission` outcome: a
NOT_FOUND error is converted into `false`; every other error is
re-raised; a successful result passes through. -/
def hasPermission (checkResult : Except VulturSSOError Bool) :
    Except VulturSSOError Bool :=
  match checkResult with
  | Except.ok allowed => Except.ok allowed
  | Except.error e =>
    if e.code == ErrorCode.NOT_FOUND then Except.ok false else Except.error e

/-- `ServerPermissionChecker.hasRole` (src/server.ts lines 242 to 252),
as a function of the underlying `getUserRoles` outcome: on success the
role list is scanned for a record with the wanted name and
`is_active`; a NOT_FOUND error becomes `false`; other errors re-raise. -/
def hasRole (rolesResult : Except VulturSSOError (List UserRole))
    (roleName : String) : Except VulturSSOError Bool :=
  match rolesResult with
  | Except.ok roles =>
    Except.ok (roles.any (fun role => role.name == roleName && role.is_active))
  | Except.error e =>
    if e.code == ErrorCode.NOT_FOUND then Except.ok false else Except.error e

/-- `ServerPermissionChecker.isAdmin` (src/server.ts lines 257 to 264),
as a function of the underlying `validateToken` outcome: the catch block
turns EVERY error into `false`. -/
def isAdmin (userResult : Except VulturSSOError UserInfo) :
    Except VulturSSOError Bool :=
  match userResult with
  | Except.ok user => Except.ok user.is_admin
  | Except.error _ => Except.ok false

end ServerPermissionChecker

/-- `VulturPermissionConfig` from src/types.ts: the built catalog.
`lastUpdated` is kept optional because `build()` returns the partial
config through an unchecked cast and never stamps the field itself. -/
structure VulturPermissionConfig where
  applicationName : String
  version : String
  permissions : List PermissionScope
  defaultPermissions : Option (List Permission)
  lastUpdated : Option String
deriving DecidableEq, Repr

/-- The builder's internal `Partial<VulturPermissionConfig>` state
(src/config.ts).  `none` models a field that is absent (`undefined`). -/
structure BuilderConfig where
  applicationName : Option String
  version : Option String
  permissions : Option (List PermissionScope)
  defaultPermissions : Option (List Permission)
  lastUpdated : Option String
deriving DecidableEq, Repr

/-- JavaScript truthiness of an optional string: `undefined` and the
empty string are falsy. -/
def strTruthy : Option String → Bool
  | none => false
  | some s => !(s == "")

namespace VulturPermissionConfigBuilder

/-- `new VulturPermissionConfigBuilder()` (src/config.ts lines 372 to
376): the field initializer sets `permissions` and `defaultPermissions`
to empty arrays. -/
def init : BuilderConfig :=
  { applicationName := none, version := none, permissions := some [],
    defaultPermissions := some [], lastUpdated := none }

/-- `VulturPermissionConfigBuilder.create` (src/config.ts lines 378 to
384).  `now` stands for `new Date().toISOString()`. -/
def create (applicationName : String) (version : String := "1.0.0")
    (now : String := "") : BuilderConfig :=
  { init with
    applicationName := some applicationName, version := some version,
    lastUpdated := some now }

/-- `addPermissionScope` (src/config.ts lines 386 to 398): initializes
the array when absent, then pushes the scope. -/
def addPermissionScope (b : BuilderConfig) (scope : PermissionScope) : BuilderConfig :=
  match b.permissions with
  | none => { b with permissions := some [scope] }
  | some ps => { b with permissions := some (ps ++ [scope]) }

/-- `addDefaultPermission` (src/config.ts lines 400 to 419): requires a
`permissions` array, looks up the first previously added scope with the
given id, fails when none exists, and otherwise pushes the bound entry
onto `defaultPermissions` (initializing the array when absent). -/
def addDefaultPermission (b : BuilderConfig) (scopeId : String)
    (effect : PermissionEffect := PermissionEffect.deny) :
    Except String BuilderConfig :=
  match b.permissions with
  | none => Except.error "Must add permission scopes before adding default permissions"
  | some ps =>
    match ps.find? (fun p => p.id == scopeId) with
    | none => Except.error ("Permission scope not found: " ++ scopeId)
    | some scope =>
      Except.ok { b with
        defaultPermissions :=
          some (b.defaultPermissions.getD [] ++ [{ scope := scope, effect := effect }]) }

/-- `build` (src/config.ts lines 421 to 433): checks truthiness of
`applicationName`, `version` and the `permissions` field in that order
(an empty permissions ARRAY is truthy and passes), then returns the
accumulated config through the cast `as VulturPermissionConfig`. -/
def build (b : BuilderConfig) : Except String VulturPermissionConfig :=
  if !strTruthy b.applicationName then
    Except.error "Application name is required"
  else if !strTruthy b.version then
    Except.error "Version is required"
  else if b.permissions.isNone then
    Except.error "At least one permission scope is required"
  else
    Except.ok {
      applicationName := b.applicationName.getD "",
      version := b.version.getD "",
      permissions := b.permissions.getD [],
      defaultPermissions := b.defaultPermissions,
      lastUpdated := b.lastUpdated }

end VulturPermissionConfigBuilder

/-- The resolver's guard for one claimed role name: the first role
record with that name is looked up and its `is_active` flag consulted;
a missing record counts as inactive.  Used to state what the resolver
produces for admin users. -/
def activeRoleMatch (roles : List UserRole) (roleName : String) : Bool :=
  match roles.find? (fun r => r.name == roleName) with
  | some role => role.is_active
  | none => false

/-- Sample catalog scope with action `read`. -/
def sampleReadScope : PermissionScope :=
  { id := "t:read", name := "R", description := none, resource := "t", action := "read" }

/-- Sample catalog scope with action `write`. -/
def sampleWriteScope : PermissionScope :=
  { id := "t:write", name := "W", description := none, resource := "t", action := "write" }

/-- Sample active role record named Fleet Member. -/
def sampleFleetRole : UserRole :=
  { id := 1, name := "Fleet Member", description := none, created_by := "x",
    created_at := "t0", updated_at := "t0", is_active := true }

/-- Sample inactive role record named Fleet Member. -/
def sampleInactiveRole : UserRole :=
  { id := 1, name := "Fleet Member", description := none, created_by := "x",
    created_at := "t0", updated_at := "t0", is_active := false }

/-- Sample non-admin user claiming the Fleet Member role. -/
def sampleMemberUser : UserInfo :=
  { eth_address := "0xb", character_name := "B", roles := ["Fleet Member"],
    is_admin := false, tribe_id := none }

/-- Sample admin user claiming no roles at all. -/
def sampleAdminNoRoles : UserInfo :=
  { eth_address := "0xa", character_name := "A", roles := [],
    is_admin := true, tribe_id := none }

/-- Sample admin user claiming the Fleet Member role. -/
def sampleAdminMember : UserInfo :=
  { eth_address := "0xc", character_name := "C", roles := ["Fleet Member"],
    is_admin := true, tribe_id := none }

/-- Sample resolved-permissions value whose entry list holds a deny
entry before an allow entry for the same scope id. -/
def sampleDenyFirst : UserPermissions :=
  { user := sampleMemberUser, roles := [sampleFleetRole],
    permissions := [{ scope := sampleReadScope, effect := PermissionEffect.deny },
                    { scope := sampleReadScope, effect := PermissionEffect.allow }],
    isAdmin := false, fetchedAt := "t1" }

/-- Sample unauthorized error value. -/
def sampleUnauthorized : VulturSSOError :=
  { code := ErrorCode.UNAUTHORIZED, message := "Invalid or expired token" }

/-! ## Helper lemmas -/

theorem flatMap_if_singleton {α β : Type} (p : α → Bool) (f : α → β) :
    ∀ l : List α, (l.flatMap fun a => if p a then [f a] else []) = (l.filter p).map f := by
  intro l
  induction l with
  | nil => rfl
  | cons a l ih =>
    rw [List.flatMap_cons, List.filter_cons]
    cases hp : p a <;> simp [hp, ih]

theorem flatMap_singleton_map {α β : Type} (f : α → β) (l : List α) :
    (l.flatMap fun a => [f a]) = l.map f := by
  induction l with
  | nil => rfl
  | cons a l ih => rw [List.flatMap_cons, List.map_cons, ih]; rfl

theorem flatMap_const_length {α β : Type} (l : List α) (L : List β) :
    (l.flatMap fun _ => L).length = l.length * L.length := by
  induction l with
  | nil => simp
  | cons a l ih =>
    rw [List.flatMap_cons, List.length_append, ih, List.length_cons, Nat.succ_mul,
      Nat.add_comm]

theorem roleContribution_admin (user : UserInfo) (roles : List UserRole)
    (scopes : List PermissionScope) (roleName : String) (h : user.is_admin = true) :
    roleContribution user roles scopes roleName =
      if activeRoleMatch roles roleName then
        scopes.map (fun s => { scope := s, effect := PermissionEffect.allow })
      else [] := by
  cases hf : roles.find? (fun r => r.name == roleName) with
  | none => simp [roleContribution, activeRoleMatch, hf]
  | some role =>
    cases ha : role.is_active with
    | false => simp [roleContribution, activeRoleMatch, hf, ha]
    | true => simp [roleContribution, activeRoleMatch, hf, ha, h, flatMap_singleton_map]

theorem mem_roleContribution_allow (user : UserInfo) (roles : List UserRole)
    (scopes : List PermissionScope) (roleName : String) (x : Permission)
    (hx : x ∈ roleContribution user roles scopes roleName) :
    x.effect = PermissionEffect.allow := by
  cases hf : roles.find? (fun r => r.name == roleName) with
  | none => simp [roleContribution, hf] at hx
  | some role =>
    cases ha : role.is_active with
    | false => simp [roleContribution, hf, ha] at hx
    | true =>
      simp only [roleContribution, hf, ha, if_true, List.mem_flatMap] at hx
      obtain ⟨ps, hps, hx⟩ := hx
      cases hadm : user.is_admin with
      | true =>
        simp [hadm] at hx
        simp [hx]
      | false =>
        cases hsub : memberSubstr roleName with
        | false => simp [hadm, hsub] at hx
        | true =>
          cases hread : ps.action == "read" with
          | false => simp [hadm, hsub, hread] at hx
          | true =>
            simp [hadm, hsub, hread] at hx
            simp [hx]

/-! ## Claim theorems -/

/-- C10: every permission entry produced by `resolveUserPermissions`
has effect `allow`, for every user, role list and catalog; denial is
only ever expressed as absence of an entry. -/
theorem resolver_only_allows (user : UserInfo) (roles : List UserRole)
    (app : String) (scopes : List PermissionScope) :
    (resolveUserPermissions user roles app scopes).all
      (fun p => p.effect == PermissionEffect.allow) = true := by
  rw [List.all_eq_true]
  intro x hx
  rw [resolveUserPermissions, List.mem_flatMap] at hx
  obtain ⟨rn, hrn, hx⟩ := hx
  have := mem_roleContribution_allow user roles scopes rn x hx
  simp [this]

/-- C9: a claimed role whose first matching record is inactive, or that
has no matching record in the supplied list, contributes no permission
entries; when every claimed role is in one of these two cases the whole
resolution is empty. -/
theorem inactive_role_contributes_nothing (user : UserInfo) (roles : List UserRole)
    (app : String) (scopes : List PermissionScope) (roleName : String) :
    (roles.find? (fun r => r.name == roleName) = none →
      roleContribution user roles scopes roleName = []) ∧
    (∀ role, roles.find? (fun r => r.name == roleName) = some role →
      role.is_active = false → roleContribution user roles scopes roleName = []) ∧
    ((∀ rn ∈ user.roles, ∀ role, roles.find? (fun r => r.name == rn) = some role →
        role.is_active = false) →
      resolveUserPermissions user roles app scopes = []) := by
  refine ⟨fun hf => by simp [roleContribution, hf], fun role hf ha => by
    simp [roleContribution, hf, ha], fun hall => ?_⟩
  rw [resolveUserPermissions, List.flatMap_eq_nil_iff]
  intro rn hrn
  cases hf : roles.find? (fun r => r.name == rn) with
  | none => simp [roleContribution, hf]
  | some role => simp [roleContribution, hf, hall rn hrn role hf]

/-- C9 witness: no contribution from a role with no matching record,
none from one whose record is inactive, and an empty resolution when
the only claimed role is inactive. -/
theorem inactive_role_contributes_nothing_witness :
    roleContribution sampleMemberUser [] [sampleReadScope] "Fleet Member" = [] ∧
    roleContribution sampleMemberUser [sampleInactiveRole] [sampleReadScope]
      "Fleet Member" = [] ∧
    resolveUserPermissions sampleMemberUser [sampleInactiveRole] "app"
      [sampleReadScope] = [] :=
  ⟨(inactive_role_contributes_nothing sampleMemberUser [] "app" [sampleReadScope]
      "Fleet Member").1 rfl,
   (inactive_role_contributes_nothing sampleMemberUser [sampleInactiveRole] "app"
      [sampleReadScope] "Fleet Member").2.1 sampleInactiveRole rfl rfl,
   (inactive_role_contributes_nothing sampleMemberUser [sampleInactiveRole] "app"
      [sampleReadScope] "Fleet Member").2.2 (by
        intro rn hrn role hf
        simp only [sampleMemberUser, List.mem_singleton] at hrn
        subst hrn
        have hcomp : ([sampleInactiveRole].find? (fun r => r.name == "Fleet Member")) =
            some sampleInactiveRole := rfl
        rw [hcomp] at hf
        injection hf with h
        rw [← h]
        rfl)⟩

/-- C1 counterexample: an admin user whose claimed role list is empty
resolves to ZERO permissions against a one-scope catalog, not to one
`allow` entry per scope as the claim demands for every roles content. -/
theorem admin_bypass_needs_active_role_counterexample :
    sampleAdminNoRoles.is_admin = true ∧
    resolveUserPermissions sampleAdminNoRoles [] "app" [sampleReadScope] = [] ∧
    (resolveUserPermissions sampleAdminNoRoles [] "app" [sampleReadScope]).length ≠ 1 := by
  refine ⟨rfl, rfl, by decide⟩

/-- C1 amended: for an admin user the resolver emits the full catalog
(one `allow` entry per scope) once per claimed role whose first matching
role record is active, so the output length is the number of such roles
times the number of scopes; with no active matching role it is empty. -/
theorem admin_resolution_per_active_role (user : UserInfo) (roles : List UserRole)
    (app : String) (scopes : List PermissionScope) (h : user.is_admin = true) :
    resolveUserPermissions user roles app scopes =
      (user.roles.filter (activeRoleMatch roles)).flatMap
        (fun _ => scopes.map (fun s => { scope := s, effect := PermissionEffect.allow })) ∧
    (resolveUserPermissions user roles app scopes).length =
      (user.roles.filter (activeRoleMatch roles)).length * scopes.length := by
  have hmain : resolveUserPermissions user roles app scopes =
      (user.roles.filter (activeRoleMatch roles)).flatMap
        (fun _ => scopes.map (fun s => { scope := s, effect := PermissionEffect.allow })) := by
    rw [resolveUserPermissions]
    induction user.roles with
    | nil => rfl
    | cons rn rns ih =>
      rw [List.flatMap_cons, List.filter_cons, roleContribution_admin user roles scopes rn h]
      cases hA : activeRoleMatch roles rn with
      | false => simpa [hA] using ih
      | true => simp only [hA, if_true, List.flatMap_cons]; rw [ih]
  refine ⟨hmain, ?_⟩
  rw [hmain, flatMap_const_length, List.length_map]

/-- C1 witness: an admin with one claimed role whose record is active,
against a two-scope catalog. -/
theorem admin_resolution_per_active_role_witness :
    resolveUserPermissions sampleAdminMember [sampleFleetRole] "app"
        [sampleReadScope, sampleWriteScope] =
      (sampleAdminMember.roles.filter (activeRoleMatch [sampleFleetRole])).flatMap
        (fun _ => [sampleReadScope, sampleWriteScope].map
          (fun s => { scope := s, effect := PermissionEffect.allow })) ∧
    (resolveUserPermissions sampleAdminMember [sampleFleetRole] "app"
        [sampleReadScope, sampleWriteScope]).length =
      (sampleAdminMember.roles.filter (activeRoleMatch [sampleFleetRole])).length * 2 :=
  admin_resolution_per_active_role sampleAdminMember [sampleFleetRole] "app"
    [sampleReadScope, sampleWriteScope] rfl

/-- C7: for a non-admin user, a claimed role whose name
case-insensitively contains the substring member and whose first
matching role record is active contributes exactly one `allow` entry
per catalog scope with action `read` and nothing for any other action;
in particular every read scope gets an `allow` entry in the resolution. -/
theorem member_role_read_only (user : UserInfo) (roles : List UserRole)
    (app : String) (scopes : List PermissionScope) (roleName : String) (role : UserRole)
    (hadmin : user.is_admin = false)
    (hmem : roleName ∈ user.roles)
    (hsub : memberSubstr roleName = true)
    (hfind : roles.find? (fun r => r.name == roleName) = some role)
    (hact : role.is_active = true) :
    roleContribution user roles scopes roleName =
      (scopes.filter (fun s => s.action == "read")).map
        (fun s => { scope := s, effect := PermissionEffect.allow }) ∧
    ∀ s ∈ scopes, s.action = "read" →
      ({ scope := s, effect := PermissionEffect.allow } : Permission) ∈
        resolveUserPermissions user roles app scopes := by
  have hcontrib : roleContribution user roles scopes roleName =
      (scopes.filter (fun s => s.action == "read")).map
        (fun s => { scope := s, effect := PermissionEffect.allow }) := by
    simp only [roleContribution, hfind, hact, if_true, hadmin, hsub]
    simpa using flatMap_if_singleton (fun s : PermissionScope => s.action == "read")
      (fun s => ({ scope := s, effect := PermissionEffect.allow } : Permission)) scopes
  refine ⟨hcontrib, fun s hs hread => ?_⟩
  rw [resolveUserPermissions, List.mem_flatMap]
  refine ⟨roleName, hmem, ?_⟩
  rw [hcontrib, List.mem_map]
  exact ⟨s, List.mem_filter.mpr ⟨hs, by simp [hread]⟩, rfl⟩

/-- C7 witness: the sample member user with an active Fleet Member
record against a read scope and a write scope. -/
theorem member_role_read_only_witness :
    roleContribution sampleMemberUser [sampleFleetRole] [sampleReadScope, sampleWriteScope]
        "Fleet Member" =
      ([sampleReadScope, sampleWriteScope].filter (fun s => s.action == "read")).map
        (fun s => { scope := s, effect := PermissionEffect.allow }) ∧
    ∀ s ∈ [sampleReadScope, sampleWriteScope], s.action = "read" →
      ({ scope := s, effect := PermissionEffect.allow } : Permission) ∈
        resolveUserPermissions sampleMemberUser [sampleFleetRole] "app"
          [sampleReadScope, sampleWriteScope] :=
  member_role_read_only sampleMemberUser [sampleFleetRole] "app"
    [sampleReadScope, sampleWriteScope] "Fleet Member" sampleFleetRole
    rfl (by decide) rfl rfl rfl

/-- C3 counterexample: with no resolution data, `hasAllPermissions` on
an EMPTY scope-id list returns true (vacuous every), not false. -/
theorem hasAllPermissions_empty_no_data_counterexample :
    Hooks.hasAllPermissions none [] PermissionEffect.allow = true := rfl

/-- C3 amended: with no resolution data available, `hasPermission`,
`hasAnyPermission`, `hasRole` and `isAdmin` return false for every
argument, and `hasAllPermissions` returns false for every NONEMPTY
scope-id list but true for the empty one; none of them can throw
(all are total functions). -/
theorem queries_false_without_data (scopeId : String) (scopeIds : List String)
    (eff : PermissionEffect) (roleName : String) :
    Hooks.hasPermission none scopeId eff = false ∧
    Hooks.hasAnyPermission none scopeIds eff = false ∧
    (scopeIds ≠ [] → Hooks.hasAllPermissions none scopeIds eff = false) ∧
    Hooks.hasAllPermissions none [] eff = true ∧
    Hooks.hasRole none roleName = false ∧
    Hooks.isAdmin none = false := by
  refine ⟨rfl, ?_, ?_, rfl, rfl, rfl⟩
  · simp [Hooks.hasAnyPermission, Hooks.hasPermission]
  · intro hne
    cases scopeIds with
    | nil => exact absurd rfl hne
    | cons sid rest => simp [Hooks.hasAllPermissions, Hooks.hasPermission]

/-- C3 witness: the no-data queries evaluated at concrete arguments,
including a nonempty list for `hasAllPermissions`. -/
theorem queries_false_without_data_witness :
    Hooks.hasPermission none "t:read" PermissionEffect.allow = false ∧
    Hooks.hasAnyPermission none ["t:read"] PermissionEffect.allow = false ∧
    Hooks.hasAllPermissions none ["t:read"] PermissionEffect.allow = false ∧
    Hooks.hasAllPermissions none [] PermissionEffect.allow = true ∧
    Hooks.hasRole none "Fleet Member" = false ∧
    Hooks.isAdmin none = false :=
  ⟨(queries_false_without_data "t:read" ["t:read"] PermissionEffect.allow "Fleet Member").1,
   (queries_false_without_data "t:read" ["t:read"] PermissionEffect.allow "Fleet Member").2.1,
   (queries_false_without_data "t:read" ["t:read"] PermissionEffect.allow
      "Fleet Member").2.2.1 (by decide),
   (queries_false_without_data "t:read" ["t:read"] PermissionEffect.allow "Fleet Member").2.2.2.1,
   (queries_false_without_data "t:read" ["t:read"] PermissionEffect.allow
      "Fleet Member").2.2.2.2.1,
   (queries_false_without_data "t:read" ["t:read"] PermissionEffect.allow
      "Fleet Member").2.2.2.2.2⟩

/-- C4 counterexample: an entry list holding a deny entry before an
allow entry for the same scope id makes `hasPermission` return false
although SOME entry matches the scope id with effect allow. -/
theorem hasPermission_some_entry_counterexample :
    Hooks.hasPermission (some sampleDenyFirst) "t:read" PermissionEffect.allow = false ∧
    ∃ p ∈ sampleDenyFirst.permissions,
      p.scope.id = "t:read" ∧ p.effect = PermissionEffect.allow := by
  refine ⟨by decide, ⟨{ scope := sampleReadScope, effect := PermissionEffect.allow }, ?_, rfl, rfl⟩⟩
  decide

/-- C4 amended: `hasPermission(scopeId, wantEffect)` is true exactly
when the FIRST entry in `permissions` whose scope id equals `scopeId`
exists and has effect `wantEffect` (later entries with the same scope id
are never consulted); with no entry for that scope id it is false. -/
theorem hasPermission_first_match (up : UserPermissions) (scopeId : String)
    (eff : PermissionEffect) :
    (Hooks.hasPermission (some up) scopeId eff = true ↔
      ∃ before entry after, up.permissions = before ++ entry :: after ∧
        entry.scope.id = scopeId ∧ entry.effect = eff ∧
        ∀ q ∈ before, q.scope.id ≠ scopeId) ∧
    ((∀ q ∈ up.permissions, q.scope.id ≠ scopeId) →
      Hooks.hasPermission (some up) scopeId eff = false) := by
  constructor
  · constructor
    · intro h
      rw [Hooks.hasPermission] at h
      cases hf : up.permissions.find? (fun p => p.scope.id == scopeId) with
      | none => rw [hf] at h; cases h
      | some p =>
        rw [hf] at h
        simp only [beq_iff_eq] at h
        obtain ⟨hpred, as, bs, heq, hall⟩ := List.find?_eq_some.mp hf
        refine ⟨as, p, bs, heq, by simpa using hpred, h, fun q hq => by
          simpa using hall q hq⟩
    · rintro ⟨before, entry, after, heq, hid, heff, hbefore⟩
      have hfind : up.permissions.find? (fun p => p.scope.id == scopeId) = some entry :=
        List.find?_eq_some.mpr ⟨by simp [hid], before, after, heq,
          fun a ha => by simp [hbefore a ha]⟩
      rw [Hooks.hasPermission, hfind]
      simp [heff]
  · intro hall
    rw [Hooks.hasPermission]
    cases hf : up.permissions.find? (fun p => p.scope.id == scopeId) with
    | none => rfl
    | some p =>
      have hmem := List.mem_of_find?_eq_some hf
      have hpred := List.find?_some hf
      exact absurd (by simpa using hpred) (hall p hmem)

/-- C4 witness: on the deny-before-allow sample, the characterization
proves the deny query true (the first matching entry denies) and the
query for an id that matches nothing false. -/
theorem hasPermission_first_match_witness :
    Hooks.hasPermission (some sampleDenyFirst) "t:read" PermissionEffect.deny = true ∧
    Hooks.hasPermission (some sampleDenyFirst) "zzz" PermissionEffect.allow = false :=
  ⟨(hasPermission_first_match sampleDenyFirst "t:read" PermissionEffect.deny).1.mpr
      ⟨[], { scope := sampleReadScope, effect := PermissionEffect.deny },
        [{ scope := sampleReadScope, effect := PermissionEffect.allow }], rfl, rfl, rfl,
        by simp⟩,
   (hasPermission_first_match sampleDenyFirst "zzz" PermissionEffect.allow).2 (by decide)⟩

/-- C5: `checkUserPermission` raises UNAUTHORIZED on 401, returns
false on 404, raises NETWORK_ERROR on any other non-2xx status, and on
a 2xx response returns the boolean `allowed` field of the decoded body. -/
theorem checkUserPermission_status_cases (status : Nat) (body : CheckPermissionBody) :
    (status = 401 →
      VulturIdentServerClient.checkUserPermission status body =
        Except.error { code := ErrorCode.UNAUTHORIZED, message := "Invalid or expired token" }) ∧
    (status = 404 →
      VulturIdentServerClient.checkUserPermission status body = Except.ok false) ∧
    (responseOk status = false → status ≠ 401 → status ≠ 404 →
      ∃ msg, VulturIdentServerClient.checkUserPermission status body =
        Except.error { code := ErrorCode.NETWORK_ERROR, message := msg }) ∧
    (∀ b : Bool, responseOk status = true → body.allowed = some b →
      VulturIdentServerClient.checkUserPermission status body = Except.ok b) := by
  refine ⟨fun h => by subst h; rfl, fun h => by subst h; rfl, fun hok h1 h4 => ?_, ?_⟩
  · refine ⟨"Permission check failed", ?_⟩
    simp [VulturIdentServerClient.checkUserPermission, hok, h1, h4]
  · intro b hok hb
    simp only [VulturIdentServerClient.checkUserPermission, hok, Bool.not_true,
      Bool.false_eq_true, if_false, hb]
    cases b <;> simp

/-- C5 witness: the four status cases evaluated at 401, 404, 500 and a
200 response carrying allowed equal to false. -/
theorem checkUserPermission_status_cases_witness :
    VulturIdentServerClient.checkUserPermission 401 { allowed := none } =
      Except.error { code := ErrorCode.UNAUTHORIZED, message := "Invalid or expired token" } ∧
    VulturIdentServerClient.checkUserPermission 404 { allowed := none } = Except.ok false ∧
    (∃ msg, VulturIdentServerClient.checkUserPermission 500 { allowed := none } =
      Except.error { code := ErrorCode.NETWORK_ERROR, message := msg }) ∧
    VulturIdentServerClient.checkUserPermission 200 { allowed := some false } =
      Except.ok false :=
  ⟨(checkUserPermission_status_cases 401 { allowed := none }).1 rfl,
   (checkUserPermission_status_cases 404 { allowed := none }).2.1 rfl,
   (checkUserPermission_status_cases 500 { allowed := none }).2.2.1 rfl
     (by decide) (by decide),
   (checkUserPermission_status_cases 200 { allowed := some false }).2.2.2 false rfl rfl⟩

/-- C6 counterexample: `ServerPermissionChecker.isAdmin` converts an
UNAUTHORIZED failure of the underlying token validation into a false
result instead of re-raising it as the claim requires. -/
theorem isAdmin_swallows_errors_counterexample :
    ServerPermissionChecker.isAdmin (Except.error sampleUnauthorized) = Except.ok false ∧
    sampleUnauthorized.code ≠ ErrorCode.NOT_FOUND := by
  refine ⟨rfl, by decide⟩

/-- C6 amended: `hasPermission` and `hasRole` convert only a NOT_FOUND
error of the underlying client call into a false result and re-raise
every other error unchanged, while `isAdmin` converts EVERY error
(UNAUTHORIZED, FORBIDDEN and NETWORK_ERROR included) into false. -/
theorem checker_error_conversion (e : VulturSSOError) (b : Bool)
    (roles : List UserRole) (roleName : String) (user : UserInfo) :
    (e.code = ErrorCode.NOT_FOUND →
      ServerPermissionChecker.hasPermission (Except.error e) = Except.ok false) ∧
    (e.code ≠ ErrorCode.NOT_FOUND →
      ServerPermissionChecker.hasPermission (Except.error e) = Except.error e) ∧
    ServerPermissionChecker.hasPermission (Except.ok b) = Except.ok b ∧
    (e.code = ErrorCode.NOT_FOUND →
      ServerPermissionChecker.hasRole (Except.error e) roleName = Except.ok false) ∧
    (e.code ≠ ErrorCode.NOT_FOUND →
      ServerPermissionChecker.hasRole (Except.error e) roleName = Except.error e) ∧
    ServerPermissionChecker.isAdmin (Except.error e) = Except.ok false ∧
    ServerPermissionChecker.isAdmin (Except.ok user) = Except.ok user.is_admin := by
  refine ⟨fun h => by simp [ServerPermissionChecker.hasPermission, h],
    fun h => by simp [ServerPermissionChecker.hasPermission, h],
    rfl,
    fun h => by simp [ServerPermissionChecker.hasRole, h],
    fun h => by simp [ServerPermissionChecker.hasRole, h],
    rfl, rfl⟩

/-- C6 witness: the conversion cases evaluated at a NOT_FOUND error and
at the sample UNAUTHORIZED error. -/
theorem checker_error_conversion_witness :
    ServerPermissionChecker.hasPermission
      (Except.error { code := ErrorCode.NOT_FOUND, message := "User not found" }) =
        Except.ok false ∧
    ServerPermissionChecker.hasPermission (Except.error sampleUnauthorized) =
      Except.error sampleUnauthorized ∧
    ServerPermissionChecker.hasRole (Except.error sampleUnauthorized) "Fleet Member" =
      Except.error sampleUnauthorized ∧
    ServerPermissionChecker.isAdmin (Except.error sampleUnauthorized) = Except.ok false :=
  ⟨(checker_error_conversion { code := ErrorCode.NOT_FOUND, message := "User not found" }
      false [] "Fleet Member" sampleMemberUser).1 rfl,
   (checker_error_conversion sampleUnauthorized false [] "Fleet Member"
      sampleMemberUser).2.1 (by decide),
   (checker_error_conversion sampleUnauthorized false [] "Fleet Member"
      sampleMemberUser).2.2.2.2.1 (by decide),
   (checker_error_conversion sampleUnauthorized false [] "Fleet Member"
      sampleMemberUser).2.2.2.2.2.1⟩

/-- C8: `addDefaultPermission` fails when no previously added scope has
the requested id (also when the permissions field is absent), and on
success appends one entry binding the FIRST previously added scope with
that id to the requested effect, leaving every other field unchanged. -/
theorem addDefaultPermission_ordering (b : BuilderConfig) (scopeId : String)
    (eff : PermissionEffect) :
    ((∀ s ∈ b.permissions.getD [], s.id ≠ scopeId) →
      ∃ msg, VulturPermissionConfigBuilder.addDefaultPermission b scopeId eff =
        Except.error msg) ∧
    (∀ ps scope, b.permissions = some ps →
      ps.find? (fun p => p.id == scopeId) = some scope →
      VulturPermissionConfigBuilder.addDefaultPermission b scopeId eff =
        Except.ok { b with
          defaultPermissions :=
            some (b.defaultPermissions.getD [] ++ [{ scope := scope, effect := eff }]) } ∧
      scope ∈ ps ∧ scope.id = scopeId) := by
  constructor
  · intro hall
    cases hp : b.permissions with
    | none =>
      exact ⟨"Must add permission scopes before adding default permissions",
        by simp [VulturPermissionConfigBuilder.addDefaultPermission, hp]⟩
    | some ps =>
      have hf : ps.find? (fun p => p.id == scopeId) = none := by
        rw [List.find?_eq_none]
        intro s hs
        have := hall s (by rw [hp]; exact hs)
        simp [this]
      exact ⟨"Permission scope not found: " ++ scopeId,
        by simp [VulturPermissionConfigBuilder.addDefaultPermission, hp, hf]⟩
  · intro ps scope hp hf
    refine ⟨by simp [VulturPermissionConfigBuilder.addDefaultPermission, hp, hf],
      List.mem_of_find?_eq_some hf, ?_⟩
    have := List.find?_some hf
    simpa using this

/-- C8 witness: on a fresh builder the default-permission binding fails
(nothing was added before the call); after adding the read scope the
same call succeeds and appends the entry bound to that exact scope. -/
theorem addDefaultPermission_ordering_witness :
    (∃ msg, VulturPermissionConfigBuilder.addDefaultPermission
        (VulturPermissionConfigBuilder.create "app" "1.0.0" "t0") "t:read"
          PermissionEffect.allow = Except.error msg) ∧
    (VulturPermissionConfigBuilder.addDefaultPermission
        (VulturPermissionConfigBuilder.addPermissionScope
          (VulturPermissionConfigBuilder.create "app" "1.0.0" "t0") sampleReadScope)
            "t:read" PermissionEffect.allow =
      Except.ok {
        applicationName := some "app", version := some "1.0.0",
        permissions := some [sampleReadScope],
        defaultPermissions :=
          some [{ scope := sampleReadScope, effect := PermissionEffect.allow }],
        lastUpdated := some "t0" } ∧
      sampleReadScope ∈ [sampleReadScope] ∧ sampleReadScope.id = "t:read") :=
  ⟨(addDefaultPermission_ordering (VulturPermissionConfigBuilder.create "app" "1.0.0" "t0")
      "t:read" PermissionEffect.allow).1 (by decide),
   (addDefaultPermission_ordering (VulturPermissionConfigBuilder.addPermissionScope
      (VulturPermissionConfigBuilder.create "app" "1.0.0" "t0") sampleReadScope)
      "t:read" PermissionEffect.allow).2 [sampleReadScope] sampleReadScope rfl rfl⟩

/-- C2 counterexample: a builder created with name and version but ZERO
added scopes builds successfully, because the field initializer makes
`permissions` an empty array, which is truthy; the claimed at-least-one
-scope failure never happens. -/
theorem build_empty_scopes_counterexample :
    VulturPermissionConfigBuilder.build (VulturPermissionConfigBuilder.create "app" "1.0.0" "t0") =
      Except.ok {
        applicationName := "app", version := "1.0.0", permissions := [],
        defaultPermissions := some [], lastUpdated := some "t0" } := rfl

/-- C2 amended: `build` fails with three distinct messages when the
application name is missing or empty, when the version is missing or
empty, and when the `permissions` FIELD is absent; a present but empty
scope list passes, and with nonempty name and version and a present
permissions field the accumulated catalog is returned. -/
theorem build_validation (b : BuilderConfig) :
    (strTruthy b.applicationName = false →
      VulturPermissionConfigBuilder.build b = Except.error "Application name is required") ∧
    (strTruthy b.applicationName = true → strTruthy b.version = false →
      VulturPermissionConfigBuilder.build b = Except.error "Version is required") ∧
    (strTruthy b.applicationName = true → strTruthy b.version = true →
      b.permissions = none →
      VulturPermissionConfigBuilder.build b =
        Except.error "At least one permission scope is required") ∧
    (∀ a v ps, b.applicationName = some a → a ≠ "" → b.version = some v → v ≠ "" →
      b.permissions = some ps →
      VulturPermissionConfigBuilder.build b =
        Except.ok {
          applicationName := a, version := v, permissions := ps,
          defaultPermissions := b.defaultPermissions, lastUpdated := b.lastUpdated }) ∧
    ("Application name is required" ≠ "Version is required" ∧
     "Application name is required" ≠ "At least one permission scope is required" ∧
     "Version is required" ≠ "At least one permission scope is required") := by
  refine ⟨fun h => by simp [VulturPermissionConfigBuilder.build, h],
    fun h1 h2 => by simp [VulturPermissionConfigBuilder.build, h1, h2],
    fun h1 h2 h3 => by simp [VulturPermissionConfigBuilder.build, h1, h2, h3],
    fun a v ps ha hane hv hvne hp => ?_, by decide, by decide, by decide⟩
  have h1 : strTruthy (some a) = true := by simp [strTruthy, hane]
  have h2 : strTruthy (some v) = true := by simp [strTruthy, hvne]
  simp [VulturPermissionConfigBuilder.build, h1, h2, hp, ha, hv]

/-- C2 witness: the validation evaluated on a builder with an empty
name, one with an empty version, one missing the permissions field, and
a complete one. -/
theorem build_validation_witness :
    VulturPermissionConfigBuilder.build
      { VulturPermissionConfigBuilder.init with applicationName := some "" } =
        Except.error "Application name is required" ∧
    VulturPermissionConfigBuilder.build
      { applicationName := some "app", version := some "", permissions := some [],
        defaultPermissions := some [], lastUpdated := none } =
        Except.error "Version is required" ∧
    VulturPermissionConfigBuilder.build
      { applicationName := some "app", version := some "1.0.0", permissions := none,
        defaultPermissions := none, lastUpdated := none } =
        Except.error "At least one permission scope is required" ∧
    VulturPermissionConfigBuilder.build
      { applicationName := some "app", version := some "1.0.0",
        permissions := some [sampleReadScope], defaultPermissions := some [],
        lastUpdated := some "t0" } =
      Except.ok {
        applicationName := "app", version := "1.0.0",
        permissions := [sampleReadScope], defaultPermissions := some [],
        lastUpdated := some "t0" } :=
  ⟨(build_validation
      { VulturPermissionConfigBuilder.init with applicationName := some "" }).1 rfl,
   (build_validation
      { applicationName := some "app", version := some "", permissions := some [],
        defaultPermissions := some [], lastUpdated := none }).2.1 rfl rfl,
   (build_validation
      { applicationName := some "app", version := some "1.0.0", permissions := none,
        defaultPermissions := none, lastUpdated := none }).2.2.1 rfl rfl rfl,
   (build_validation
      { applicationName := some "app", version := some "1.0.0",
        permissions := some [sampleReadScope], defaultPermissions := some [],
        lastUpdated := some "t0" }).2.2.2.1 "app" "1.0.0" [sampleReadScope]
      rfl (by decide) rfl (by decide) rfl⟩

end VulturSSO
